import Mathlib

/-!
# Verification of the demand-forecasting dashboard (`src/main.py`)

Shallow embedding of a small Streamlit dashboard that loads a sales table
from a database, reshapes it with pandas, hands it to a statsforecast
model, and offers the forecast as a downloadable CSV.

The embedding models:
* a pandas dataframe as an ordered list of column names together with a
  list of rows (each row a list of cells);
* the functions `create_dataframe`, `plot_volume`, `format_dataset`,
  `make_predictions` of `main.py`, and the `__main__` UI block;
* Streamlit's caching decorators as configuration data plus a staleness
  predicate;
* the pandas aliasing semantics relevant to `format_dataset` (boolean-mask
  selection and `drop` return fresh frames; `rename(inplace=True)` mutates
  its receiver) via a small heap of frames.

External-library behaviour that the claims depend on but that is not in
the repository (the statsforecast `forecast` call) is modelled from the
spec and marked as such in its doc comment.
-/

/-- A cell of a dataframe: either a string value or an integer value.
The sales table mixes integer cells (the row id, the coerced volume)
with string cells (part identifier, date). -/
inductive CellVal where
  | str (s : String)
  | int (n : Int)
deriving DecidableEq, Repr

/-- A pandas dataframe: an ordered list of column labels and a list of
rows, each row an ordered list of cells (one per column). -/
structure DataFrame where
  cols : List String
  rows : List (List CellVal)
deriving DecidableEq, Repr

/-- A raw record of the `car_parts_monthly_sales` table as returned by
the database query: row id, product part identifier, date, and the
volume as delivered (a string, to be coerced to integer). -/
structure RawRow where
  id : Int
  parts_id : String
  date : String
  volume : String
deriving DecidableEq, Repr

/-- Index of a column label, as pandas column lookup. -/
def DataFrame.colIdx (df : DataFrame) (c : String) : Option Nat :=
  df.cols.findIdx? (fun x => x = c)

/-- The values of the named column (cells at the column's index). -/
def DataFrame.colValues (df : DataFrame) (c : String) : List CellVal :=
  match df.colIdx c with
  | some i => df.rows.filterMap (fun r => r.get? i)
  | none => []

/-- Accumulate the value of a decimal digit string; `none` on the first
non-digit character. -/
def digitsVal : List Char → Nat → Option Nat
  | [], acc => some acc
  | c :: cs, acc =>
    if c.isDigit then digitsVal cs (acc * 10 + (c.toNat - '0'.toNat)) else none

/-- Python `int(s)` on a string: an optional sign followed by at least
one decimal digit (surrounding whitespace and digit separators are not
modelled; no claim depends on them). -/
def parsePyInt (s : String) : Option Int :=
  match s.data with
  | [] => none
  | '-' :: cs =>
    if cs.isEmpty then none else (digitsVal cs 0).map (fun n => -(n : Int))
  | '+' :: cs =>
    if cs.isEmpty then none else (digitsVal cs 0).map (fun n => (n : Int))
  | cs => (digitsVal cs 0).map (fun n => (n : Int))

/-- The conversion applied per cell by `astype(int)`: Python `int(s)` on
a string cell, identity on an integer cell. -/
def cellToInt (v : CellVal) : Option Int :=
  match v with
  | .str s => parsePyInt s
  | .int n => some n

/-- Convert the cell at index `i` of a row to an integer, failing if it
is not integer-convertible. -/
def convertRowAt (i : Nat) (row : List CellVal) : Option (List CellVal) :=
  match row.get? i with
  | some v => (cellToInt v).map (fun n => row.set i (.int n))
  | none => none

/-- Apply a fallible conversion to every row; the whole traversal fails
as soon as one row fails (pandas `astype` raises on the first
non-convertible value). -/
def traverseRows (f : List CellVal → Option (List CellVal)) :
    List (List CellVal) → Option (List (List CellVal))
  | [] => some []
  | r :: rs =>
    match f r with
    | some r2 => (traverseRows f rs).map (fun rest => r2 :: rest)
    | none => none

/-- `df[c] = df[c].astype(int)`: coerce one column to integers.
pandas raises on the first non-convertible value, so the whole
operation either succeeds for every row or fails (`none`). -/
def DataFrame.astypeInt (df : DataFrame) (c : String) : Option DataFrame :=
  (df.colIdx c).bind
    (fun i => (traverseRows (convertRowAt i) df.rows).map (fun rs => ⟨df.cols, rs⟩))

/-- The columns of the normalized sales table, in record order. -/
def salesCols : List String := ["id", "parts_id", "date", "volume"]

/-- `pd.json_normalize(rows)` on the query result: a frame with the four
columns of the sales table in record order. -/
def json_normalize (rows : List RawRow) : DataFrame :=
  ⟨salesCols,
   rows.map (fun r => [.int r.id, .str r.parts_id, .str r.date, .str r.volume])⟩

/-- `create_dataframe` (main.py lines 32-38): normalize the queried rows
into a dataframe and coerce the volume column to integer.  Fails (as the
Python raises) when some volume value is not integer-convertible. -/
def create_dataframe (rows : List RawRow) : Option DataFrame :=
  (json_normalize rows).astypeInt "volume"

/-- The boolean mask `df['parts_id'].isin(ids)` applied to one cell:
true exactly when the cell is the string of a requested identifier. -/
def isinCell (ids : List String) (v : CellVal) : Bool :=
  match v with
  | .str s => decide (s ∈ ids)
  | .int _ => false

/-- `df[df['parts_id'].isin(ids)]`: keep the rows whose `parts_id` cell
is one of the requested identifiers.  Boolean-mask selection returns a
fresh frame. -/
def DataFrame.filterIsin (df : DataFrame) (ids : List String) : DataFrame :=
  match df.colIdx "parts_id" with
  | some i => ⟨df.cols, df.rows.filter (fun r => match r.get? i with
      | some v => isinCell ids v
      | none => false)⟩
  | none => ⟨df.cols, []⟩

/-- Remove the element at index `i` of a list (pandas dropping one
column's cell from a row). -/
def dropIdx (i : Nat) (l : List α) : List α :=
  l.take i ++ l.drop (i + 1)

/-- `df.drop(['id'], axis=1)`: remove the named column; pandas raises a
`KeyError` when the label is absent, hence `none`. -/
def DataFrame.dropCol (df : DataFrame) (c : String) : Option DataFrame :=
  match df.colIdx c with
  | some i => some ⟨dropIdx i df.cols, df.rows.map (dropIdx i)⟩
  | none => none

/-- The rename mapping of `format_dataset`:
`{"parts_id": "unique_id", "date": "ds", "volume": "y"}`. -/
def renameMap (c : String) : String :=
  if c = "parts_id" then "unique_id"
  else if c = "date" then "ds"
  else if c = "volume" then "y"
  else c

/-- `model_df.rename({...}, axis=1)`: relabel the columns, data rows
unchanged. -/
def DataFrame.renameCols (df : DataFrame) (m : String → String) : DataFrame :=
  ⟨df.cols.map m, df.rows⟩

/-- `format_dataset` (main.py lines 59-66): filter the sales frame to
the requested identifiers, drop the raw row-id column, and rename the
remaining columns to the statsforecast schema. -/
def format_dataset (df : DataFrame) (ids : List String) : Option DataFrame :=
  let model_df := df.filterIsin ids
  (model_df.dropCol "id").map (fun d => d.renameCols renameMap)

/-- The sales row of `r` once its volume has been coerced to the
integer `n`. -/
def convRow (r : RawRow) (n : Int) : List CellVal :=
  [.int r.id, .str r.parts_id, .str r.date, .int n]

/-- Specification-level view of `create_dataframe`: convert every raw
row, failing as a whole at the first non-convertible volume. -/
def convertedRows : List RawRow → Option (List (List CellVal))
  | [] => some []
  | r :: rs =>
    match parsePyInt r.volume with
    | some n => (convertedRows rs).map (fun rest => convRow r n :: rest)
    | none => none

/-- The row predicate of `df[df['parts_id'].isin(ids)]` on the sales
schema (the `parts_id` cell sits at index 1). -/
def rowIsin (ids : List String) (row : List CellVal) : Bool :=
  match row.get? 1 with
  | some v => isinCell ids v
  | none => false

/-- Example records from the spec: two sales rows for part "A". -/
def exRows : List RawRow :=
  [⟨1, "A", "2023-01-01", "5"⟩, ⟨2, "A", "2023-02-01", "3"⟩]

/-- The dataframe `create_dataframe` builds from `exRows`. -/
def dfEx : DataFrame :=
  ⟨salesCols,
   [[.int 1, .str "A", .str "2023-01-01", .int 5],
    [.int 2, .str "A", .str "2023-02-01", .int 3]]⟩

/-- The frame `format_dataset` returns from `dfEx` for identifier "A". -/
def outEx : DataFrame :=
  ⟨["unique_id", "ds", "y"],
   [[.str "A", .str "2023-01-01", .int 5],
    [.str "A", .str "2023-02-01", .int 3]]⟩

/-- The strings among a list of cells (used for `unique()` on a string
column). -/
def strVals (l : List CellVal) : List String :=
  l.filterMap (fun v => match v with | .str s => some s | .int _ => none)

/-- `Series.unique()`: distinct values in first-occurrence order. -/
def dedupFirst : List String → List String
  | [] => []
  | a :: t => a :: (dedupFirst t).filter (fun x => x ≠ a)

/-- Rendering of one cell in CSV output. -/
def cellCsv : CellVal → String
  | .str s => s
  | .int n => toString n

/-- The lines of `df.to_csv(header=True)`: a header row (leading empty
field for the unnamed range index) followed by one line per data row. -/
def csvLines (df : DataFrame) : List String :=
  (String.intercalate "," ("" :: df.cols)) ::
    df.rows.enum.map (fun p => String.intercalate "," (toString p.1 :: p.2.map cellCsv))

/-- `df.to_csv(header=True)`: the CSV text, newline-separated lines with
a trailing newline. -/
def to_csv (df : DataFrame) : String :=
  String.intercalate "\n" (csvLines df) ++ "\n"

/-- The statsforecast object built by `create_sf_object` (main.py lines
71-80): the training frame plus the configuration passed to the library
(`freq="MS"`, `n_jobs=-1`, single CrostonOptimized model). -/
structure StatsForecastObj where
  df : DataFrame
  freq : String
  n_jobs : Int
deriving DecidableEq, Repr

/-- `create_sf_object(model_df)`: memoized construction of the
statsforecast ensemble around the formatted frame. -/
def create_sf_object (model_df : DataFrame) : StatsForecastObj :=
  ⟨model_df, "MS", -1⟩

/-- One forecast row for identifier `s` and future period `k` (dates and
point values are placeholders; only their count is specified). -/
def forecastRow (s : String) (k : Nat) : List CellVal :=
  [.str s, .str ("future-" ++ toString (k + 1)), .int 0]

/-- Modelled from the spec: `StatsForecast.forecast(h=horizon)` is the
external forecasting library, not code of this repository.  Per the
spec it "requests a forecast of length `horizon` for every identifier
present in the input" and "produces a frame of forecasted values per
identifier and future date", so the result has exactly `horizon` rows
per distinct identifier of the input frame, with columns
(unique_id, ds, point forecast of the single CrostonOptimized model).
Forecast dates and values are placeholders; failures for insufficient
history are not modelled (claims about success assume enough history). -/
def StatsForecastObj.forecast (sf : StatsForecastObj) (horizon : Nat) : DataFrame :=
  ⟨["unique_id", "ds", "CrostonOptimized"],
   (dedupFirst (strVals (sf.df.colValues "unique_id"))).flatMap
     (fun s => (List.range horizon).map (forecastRow s))⟩

/-- `make_predictions` (main.py lines 86-91): format the dataset, build
the statsforecast object, forecast `horizon` periods and serialize to
CSV text.  `none` when `format_dataset` raises. -/
def make_predictions (df : DataFrame) (ids : List String) (horizon : Nat) : Option String :=
  (format_dataset df ids).map (fun model_df =>
    to_csv ((create_sf_object model_df).forecast horizon))

/-- The widget state a rerun of the script observes: the multiselect
value, the slider value, and whether the forecast button was pressed. -/
structure UIState where
  product_ids : List String
  horizon : Nat
  forecast_btn : Bool
deriving DecidableEq, Repr

/-- An observable UI action of one top-to-bottom run of the script. -/
inductive UIEffect where
  | title (s : String)
  | subheader (s : String)
  | multiselect (label : String) (options : List String)
  | plotChart
  | warning (s : String)
  | slider (label : String) (lo hi step : Nat)
  | button (label : String)
  | forecastInvoked (ids : List String) (horizon : Nat)
  | downloadButton (label : String) (data : String) (fileName : String) (mime : String)
deriving DecidableEq, Repr

/-- Effects that belong to the forecast action: the horizon slider, the
forecast button, the call into `make_predictions`, and the download
button. -/
def isForecastAction : UIEffect → Bool
  | .slider _ _ _ _ => true
  | .button _ => true
  | .forecastInvoked _ _ => true
  | .downloadButton _ _ _ _ => true
  | _ => false

/-- The `__main__` block (main.py lines 94-122): title, dataframe,
multiselect over the distinct part identifiers, plot, and the Forecast
expander — a warning when nothing is selected, otherwise slider and
button, and on a press the forecast plus the download button.  `none`
when an underlying call raises (dataframe creation or forecasting). -/
def main_script (rows : List RawRow) (ui : UIState) : Option (List UIEffect) :=
  (create_dataframe rows).bind (fun df =>
    if ui.product_ids.length = 0 then
      some ([.title "Forecast product demand",
             .subheader "Select a product",
             .multiselect "Select product ID" (dedupFirst (strVals (df.colValues "parts_id"))),
             .plotChart] ++
            [.warning "Select at least one product ID to forecast"])
    else
      if ui.forecast_btn then
        (make_predictions df ui.product_ids ui.horizon).map (fun csv =>
          [.title "Forecast product demand",
           .subheader "Select a product",
           .multiselect "Select product ID" (dedupFirst (strVals (df.colValues "parts_id"))),
           .plotChart] ++
          [.slider "Horizon" 1 12 1, .button "Forecast"] ++
          [.forecastInvoked ui.product_ids ui.horizon,
           .downloadButton "Download Prediction" csv "prediction.csv" "text/csv"])
      else
        some ([.title "Forecast product demand",
               .subheader "Select a product",
               .multiselect "Select product ID" (dedupFirst (strVals (df.colValues "parts_id"))),
               .plotChart] ++
              [.slider "Horizon" 1 12 1, .button "Forecast"]))

/-- The effects of a run over `exRows` with an empty selection. -/
def effsEmptyEx : List UIEffect :=
  [.title "Forecast product demand", .subheader "Select a product",
   .multiselect "Select product ID" ["A"], .plotChart,
   .warning "Select at least one product ID to forecast"]

/-- A Streamlit caching decorator configuration: `st.cache_resource`
(kept for the session) or `st.cache_data` with an optional
time-to-live in seconds. -/
inductive CachePolicy where
  | resource
  | data (ttl : Option Nat)
deriving DecidableEq, Repr

/-- `@st.cache_resource` on `init_connection` (main.py line 10). -/
def init_connection_cache : CachePolicy := .resource

/-- `@st.cache_data(ttl=600)` on `run_query` (main.py line 24): 600
seconds, i.e. 10 minutes. -/
def run_query_cache : CachePolicy := .data (some 600)

/-- `@st.cache_data(ttl=600)` on `create_dataframe` (main.py line 32). -/
def create_dataframe_cache : CachePolicy := .data (some 600)

/-- Streamlit cache consultation: a missing entry is always computed; a
present entry of age `age` seconds is recomputed exactly when the
policy carries an elapsed TTL.  No other invalidation of an entry
exists in the program (no explicit `.clear()` call appears). -/
def mustRecompute (p : CachePolicy) (entry : Option Nat) : Bool :=
  match entry with
  | none => true
  | some age =>
    match p with
    | .resource => false
    | .data none => false
    | .data (some ttl) => decide (ttl ≤ age)

/-- A heap of pandas frame objects, addressed by allocation index, to
make aliasing explicit. -/
abbrev Heap := List DataFrame

/-- Dereference a frame object. -/
def Heap.lookup (h : Heap) (r : Nat) : Option DataFrame :=
  h[r]?

/-- Allocate a fresh frame object, returning the new heap and its
address. -/
def Heap.alloc (h : Heap) (d : DataFrame) : Heap × Nat :=
  (h ++ [d], h.length)

/-- Overwrite the frame object at an address (an in-place mutation). -/
def Heap.store (h : Heap) (r : Nat) (d : DataFrame) : Heap :=
  List.set h r d

/-- `format_dataset` with pandas object semantics made explicit: the
global frame lives at address `g`; boolean-mask selection and
`drop(axis=1)` each allocate a fresh frame (pandas returns copies);
`rename(..., inplace=True)` mutates the frame object `model_df` refers
to at that moment.  Returns the heap after the call and the address of
the returned frame (`none` when `drop` raises a KeyError). -/
def format_dataset_heap (h : Heap) (g : Nat) (ids : List String) : Heap × Option Nat :=
  match h.lookup g with
  | none => (h, none)
  | some df0 =>
    let p1 := h.alloc (df0.filterIsin ids)
    match (p1.1.lookup p1.2).bind (fun d => d.dropCol "id") with
    | none => (p1.1, none)
    | some dropped =>
      let p2 := p1.1.alloc dropped
      let h3 := match p2.1.lookup p2.2 with
        | some d => p2.1.store p2.2 (d.renameCols renameMap)
        | none => p2.1
      (h3, some p2.2)

/-- The outcome of calling a Python function at module level: a value,
or an uncaught NameError for an unbound global. -/
inductive PyOutcome (α : Type) where
  | ok (a : α)
  | nameError (n : String)
deriving Repr

/-- A rendered matplotlib figure: one (label, x-values, y-values) series
per selected identifier. -/
structure PlotFig where
  series : List (String × List CellVal × List CellVal)
deriving Repr

/-- `df[df[c] == v]`: equality-mask selection. -/
def DataFrame.filterEq (df : DataFrame) (c : String) (v : CellVal) : DataFrame :=
  match df.colIdx c with
  | some i => ⟨df.cols, df.rows.filter (fun r => r.get? i = some v)⟩
  | none => ⟨df.cols, []⟩

/-- `plot_volume` (main.py lines 42-54): one line per selected
identifier, x the dates and y the volumes of that identifier's rows. -/
def plot_volume (df : DataFrame) (ids : List String) : PlotFig :=
  ⟨ids.map (fun id =>
     (id, (df.filterEq "parts_id" (.str id)).colValues "date",
          (df.filterEq "parts_id" (.str id)).colValues "volume"))⟩

/-- The module-level name `df`: it is assigned only inside the
`__main__` block (main.py line 97), so at import time — before that
block runs — the global is unbound. -/
def module_df_at_import : Option DataFrame := none

/-- `plot_volume` as called through the module-level global `df`:
reading an unbound global raises a NameError. -/
def plot_volume_module (g : Option DataFrame) (ids : List String) : PyOutcome PlotFig :=
  match g with
  | none => .nameError "df"
  | some df => .ok (plot_volume df ids)

/-- `format_dataset` as called through the module-level global `df`. -/
def format_dataset_module (g : Option DataFrame) (ids : List String) :
    PyOutcome (Option DataFrame) :=
  match g with
  | none => .nameError "df"
  | some df => .ok (format_dataset df ids)

/-- The forecast frame for identifier "A" with horizon 3. -/
def fdfEx : DataFrame :=
  ⟨["unique_id", "ds", "CrostonOptimized"],
   [[.str "A", .str "future-1", .int 0],
    [.str "A", .str "future-2", .int 0],
    [.str "A", .str "future-3", .int 0]]⟩

/-- The CSV text of the horizon-3 forecast for identifier "A". -/
def csvEx : String := to_csv fdfEx

/-- The effects of a run over `exRows` with "A" selected, horizon 3 and
the forecast button pressed. -/
def effsForecastEx : List UIEffect :=
  [.title "Forecast product demand", .subheader "Select a product",
   .multiselect "Select product ID" ["A"], .plotChart,
   .slider "Horizon" 1 12 1, .button "Forecast",
   .forecastInvoked ["A"] 3,
   .downloadButton "Download Prediction" csvEx "prediction.csv" "text/csv"]

/-- **C5** — Given records [(id="A", date="2023-01-01", volume="5"),
(id="A", date="2023-02-01", volume="3")], the dataframe builder yields
volume values [5, 3] as integers, and formatting for identifier "A"
yields a frame with columns `unique_id` (value "A"), `ds` (the date) and
`y` (the volume). -/
theorem C5_concrete_example :
    (create_dataframe exRows).map (fun df => df.colValues "volume") =
      some [.int 5, .int 3] ∧
    (create_dataframe exRows).bind (fun df => format_dataset df ["A"]) =
      some ⟨["unique_id", "ds", "y"],
            [[.str "A", .str "2023-01-01", .int 5],
             [.str "A", .str "2023-02-01", .int 3]]⟩ := by
  constructor <;> decide

/-- Converting the normalized rows one by one is `convertedRows`. -/
lemma traverseRows_json (rs : List RawRow) :
    traverseRows (convertRowAt 3)
        (rs.map (fun r => [.int r.id, .str r.parts_id, .str r.date, .str r.volume])) =
      convertedRows rs := by
  induction rs with
  | nil => rfl
  | cons a l ih =>
    simp only [List.map_cons, traverseRows, convertedRows]
    have hconv : convertRowAt 3
        [CellVal.int a.id, .str a.parts_id, .str a.date, .str a.volume] =
        (parsePyInt a.volume).map (fun n => convRow a n) := rfl
    rw [hconv]
    cases h : parsePyInt a.volume with
    | none => simp
    | some n => simp [ih]

/-- `create_dataframe` in closed form: the sales columns together with
the converted rows, failing when conversion does. -/
lemma create_dataframe_eq (rows : List RawRow) :
    create_dataframe rows =
      (convertedRows rows).map (fun rs => DataFrame.mk salesCols rs) := by
  unfold create_dataframe DataFrame.astypeInt
  have hidx : (json_normalize rows).colIdx "volume" = some 3 := rfl
  rw [hidx, Option.some_bind]
  rw [show (json_normalize rows).rows =
        rows.map (fun r =>
          [CellVal.int r.id, .str r.parts_id, .str r.date, .str r.volume]) from rfl]
  rw [traverseRows_json]
  rfl

/-- Conversion fails exactly when some raw volume fails to parse. -/
lemma convertedRows_eq_none_iff (rows : List RawRow) :
    convertedRows rows = none ↔ ∃ r ∈ rows, parsePyInt r.volume = none := by
  induction rows with
  | nil => simp [convertedRows]
  | cons a l ih =>
    simp only [convertedRows]
    cases h : parsePyInt a.volume with
    | none =>
      exact iff_of_true rfl ⟨a, List.mem_cons_self a l, h⟩
    | some n =>
      show (convertedRows l).map (fun rest => convRow a n :: rest) = none ↔
        ∃ r ∈ a :: l, parsePyInt r.volume = none
      rw [Option.map_eq_none', ih]
      constructor
      · rintro ⟨r, hr, hv⟩
        exact ⟨r, List.mem_cons_of_mem a hr, hv⟩
      · rintro ⟨r, hr, hv⟩
        rcases List.mem_cons.mp hr with rfl | hr2
        · rw [h] at hv; cases hv
        · exact ⟨r, hr2, hv⟩

/-- Successful conversion: every output row is a converted input row,
every input row appears converted, and no row is lost. -/
lemma convertedRows_mem (rows : List RawRow) (rs : List (List CellVal))
    (h : convertedRows rows = some rs) :
    (∀ row ∈ rs, ∃ r, r ∈ rows ∧ ∃ n, parsePyInt r.volume = some n ∧ row = convRow r n) ∧
    (∀ r ∈ rows, ∃ n, parsePyInt r.volume = some n ∧ convRow r n ∈ rs) ∧
    rs.length = rows.length := by
  induction rows generalizing rs with
  | nil =>
    simp only [convertedRows] at h
    cases h
    refine ⟨by simp, by simp, rfl⟩
  | cons a l ih =>
    simp only [convertedRows] at h
    cases hv : parsePyInt a.volume with
    | none => rw [hv] at h; cases h
    | some n =>
      rw [hv] at h
      change (convertedRows l).map (fun rest => convRow a n :: rest) = some rs at h
      cases hc : convertedRows l with
      | none => rw [hc] at h; cases h
      | some tl =>
        rw [hc, Option.map_some'] at h
        cases h
        obtain ⟨h1, h2, h3⟩ := ih tl hc
        refine ⟨?_, ?_, by simp [h3]⟩
        · intro row hrow
          rcases List.mem_cons.mp hrow with rfl | hrow2
          · exact ⟨a, List.mem_cons_self a l, n, hv, rfl⟩
          · obtain ⟨r, hr, hn⟩ := h1 row hrow2
            exact ⟨r, List.mem_cons_of_mem a hr, hn⟩
        · intro r hr
          rcases List.mem_cons.mp hr with rfl | hr2
          · exact ⟨n, hv, List.mem_cons_self _ _⟩
          · obtain ⟨m, hm, hmem⟩ := h2 r hr2
            exact ⟨m, hm, List.mem_cons_of_mem _ hmem⟩

/-- **C2** — For every input record set, `create_dataframe` either
succeeds with a volume column whose every value is an integer cell and
with one row per input record, or fails as a whole; it fails exactly
when some volume value is not integer-convertible. -/
theorem C2_volume_all_or_nothing (rows : List RawRow) :
    (create_dataframe rows = none ↔ ∃ r ∈ rows, parsePyInt r.volume = none) ∧
    (∀ df : DataFrame, create_dataframe rows = some df →
      df.rows.length = rows.length ∧
      ∀ v ∈ df.colValues "volume", ∃ n : Int, v = CellVal.int n) := by
  constructor
  · rw [create_dataframe_eq, Option.map_eq_none']
    exact convertedRows_eq_none_iff rows
  · intro df hdf
    rw [create_dataframe_eq] at hdf
    cases hc : convertedRows rows with
    | none => rw [hc] at hdf; cases hdf
    | some rs =>
      rw [hc, Option.map_some'] at hdf
      cases hdf
      obtain ⟨h1, _, h3⟩ := convertedRows_mem rows rs hc
      refine ⟨h3, ?_⟩
      intro v hv
      have hidx : DataFrame.colIdx ⟨salesCols, rs⟩ "volume" = some 3 := rfl
      simp only [DataFrame.colValues, hidx] at hv
      rw [List.mem_filterMap] at hv
      obtain ⟨row, hrow, hget⟩ := hv
      obtain ⟨r, _, n, _, rfl⟩ := h1 row hrow
      simp only [convRow] at hget
      exact ⟨n, by cases hget; rfl⟩

/-- A concrete instance of C2: the conversion failure side at a record
set with a non-numeric volume, and the success side at `exRows`. -/
theorem C2_witness :
    create_dataframe [⟨7, "Z", "2023-03-01", "oops"⟩] = none ∧
    ∀ v ∈ dfEx.colValues "volume", ∃ n : Int, v = CellVal.int n := by
  constructor
  · exact (C2_volume_all_or_nothing [⟨7, "Z", "2023-03-01", "oops"⟩]).1.mpr
      ⟨⟨7, "Z", "2023-03-01", "oops"⟩, by decide, by decide⟩
  · exact ((C2_volume_all_or_nothing exRows).2 dfEx (by decide)).2

/-- `format_dataset` computed on a frame with the sales schema: filter
by membership of the `parts_id` cell, drop the first cell of each row,
relabel to the statsforecast schema. -/
lemma format_dataset_sales (rs : List (List CellVal)) (ids : List String) :
    format_dataset ⟨salesCols, rs⟩ ids =
      some ⟨["unique_id", "ds", "y"], (rs.filter (rowIsin ids)).map (dropIdx 0)⟩ := rfl

/-- **C1 (counterexample)** — The claim that the formatted frame's
identifier set is exactly the requested set, even for identifiers with
no rows in the sales table, fails: for the table `exRows` (whose only
part is "A") and the request ["B"], the output has no "B" row at all. -/
theorem C1_counterexample_absent_identifier :
    (create_dataframe exRows).bind (fun df => format_dataset df ["B"]) =
      some ⟨["unique_id", "ds", "y"], []⟩ ∧
    CellVal.str "B" ∉ (DataFrame.mk ["unique_id", "ds", "y"] []).colValues "unique_id" := by
  constructor <;> decide

/-- An identifier string is a value of the `unique_id` column of the
formatted frame exactly when it was requested and has a sales row. -/
lemma formatted_uid_mem (rows : List RawRow) (rs : List (List CellVal))
    (ids : List String) (hc : convertedRows rows = some rs) (s : String) :
    CellVal.str s ∈ (DataFrame.mk ["unique_id", "ds", "y"]
        ((rs.filter (rowIsin ids)).map (dropIdx 0))).colValues "unique_id" ↔
      s ∈ ids ∧ ∃ r ∈ rows, r.parts_id = s := by
  obtain ⟨h1, h2, -⟩ := convertedRows_mem rows rs hc
  have hidx : DataFrame.colIdx
      ⟨["unique_id", "ds", "y"], (rs.filter (rowIsin ids)).map (dropIdx 0)⟩
      "unique_id" = some 0 := rfl
  simp only [DataFrame.colValues, hidx]
  rw [List.mem_filterMap]
  constructor
  · rintro ⟨row, hrow, hget⟩
    rw [List.mem_map] at hrow
    obtain ⟨row0, hrow0, rfl⟩ := hrow
    rw [List.mem_filter] at hrow0
    obtain ⟨hmem, hpred⟩ := hrow0
    obtain ⟨r, hr, n, -, rfl⟩ := h1 row0 hmem
    have hs : r.parts_id = s := by
      simp only [convRow, dropIdx] at hget
      cases hget
      rfl
    subst hs
    refine ⟨?_, r, hr, rfl⟩
    simp only [rowIsin, convRow, isinCell] at hpred
    exact of_decide_eq_true hpred
  · rintro ⟨hs, r, hr, rfl⟩
    obtain ⟨n, -, hmem⟩ := h2 r hr
    refine ⟨dropIdx 0 (convRow r n), ?_, rfl⟩
    rw [List.mem_map]
    refine ⟨convRow r n, ?_, rfl⟩
    rw [List.mem_filter]
    refine ⟨hmem, ?_⟩
    simp only [rowIsin, convRow, isinCell]
    exact decide_eq_true hs

/-- **C1 (amended)** — For every record set accepted by
`create_dataframe` and every requested identifier list, the identifier
values of the `format_dataset` output are exactly the requested
identifiers that have at least one row in the sales table (so exactly
the requested set whenever every requested identifier occurs), and the
output columns never include the raw row-identifier column "id". -/
theorem C1_formatted_identifiers (rows : List RawRow) (df : DataFrame)
    (ids : List String) (hdf : create_dataframe rows = some df)
    (out : DataFrame) (hout : format_dataset df ids = some out) :
    (∀ s : String, CellVal.str s ∈ out.colValues "unique_id" ↔
        s ∈ ids ∧ ∃ r ∈ rows, r.parts_id = s) ∧
    "id" ∉ out.cols := by
  rw [create_dataframe_eq] at hdf
  cases hc : convertedRows rows with
  | none => rw [hc] at hdf; cases hdf
  | some rs =>
    rw [hc, Option.map_some'] at hdf
    cases hdf
    rw [format_dataset_sales] at hout
    cases hout
    refine ⟨fun s => formatted_uid_mem rows rs ids hc s, ?_⟩
    show "id" ∉ ["unique_id", "ds", "y"]
    decide

/-- A concrete instance of C1 (amended): for `exRows` and the request
["A"], "A" is an output identifier and the output lacks the "id"
column. -/
theorem C1_formatted_identifiers_witness :
    CellVal.str "A" ∈ outEx.colValues "unique_id" ∧ "id" ∉ outEx.cols := by
  have h := C1_formatted_identifiers exRows dfEx ["A"] (by decide) outEx (by decide)
  exact ⟨(h.1 "A").mpr ⟨by decide, ⟨1, "A", "2023-01-01", "5"⟩, by decide, rfl⟩, h.2⟩

/-- **C9** — For every two identifier lists containing the same set of
identifiers (any order, with or without duplicates), `format_dataset`
returns the same frame: selection is by set membership of the
identifier column. -/
theorem C9_format_dataset_set_membership (df : DataFrame) (l1 l2 : List String)
    (h : ∀ s : String, s ∈ l1 ↔ s ∈ l2) :
    format_dataset df l1 = format_dataset df l2 := by
  have hfil : df.filterIsin l1 = df.filterIsin l2 := by
    unfold DataFrame.filterIsin
    cases df.colIdx "parts_id" with
    | none => rfl
    | some i =>
      simp only
      congr 1
      apply List.filter_congr
      intro r _
      cases r.get? i with
      | none => rfl
      | some v =>
        cases v with
        | int n => rfl
        | str s =>
          simp only [isinCell]
          exact decide_eq_decide.mpr (h s)
  unfold format_dataset
  rw [hfil]

/-- A concrete instance of C9: ["A", "A", "B"] and ["B", "A"] select
the same rows of `dfEx`. -/
theorem C9_witness :
    format_dataset dfEx ["A", "A", "B"] = format_dataset dfEx ["B", "A"] :=
  C9_format_dataset_set_membership dfEx ["A", "A", "B"] ["B", "A"]
    (by intro s; simp only [List.mem_cons, List.not_mem_nil, or_false]; tauto)

/-- **C3** — Whenever the set of selected product identifiers is empty,
the script run presents the warning and emits no forecast action: no
slider, no button, no invocation of `make_predictions`, no download. -/
theorem C3_empty_selection_suppresses_forecast (rows : List RawRow) (ui : UIState)
    (hempty : ui.product_ids = []) (effs : List UIEffect)
    (heffs : main_script rows ui = some effs) :
    UIEffect.warning "Select at least one product ID to forecast" ∈ effs ∧
    ∀ e ∈ effs, isForecastAction e = false := by
  unfold main_script at heffs
  cases hdf : create_dataframe rows with
  | none => rw [hdf] at heffs; cases heffs
  | some df =>
    rw [hdf, Option.some_bind, hempty] at heffs
    simp only [List.length_nil, if_true] at heffs
    cases heffs
    constructor
    · simp [List.mem_append]
    · intro e he
      simp only [List.append_assoc, List.mem_append, List.mem_cons,
        List.not_mem_nil, or_false] at he
      rcases he with (rfl | rfl | rfl | rfl) | rfl <;> rfl

/-- A concrete instance of C3: a run over `exRows` with nothing selected
shows the warning and no forecast action, even with the button state set. -/
theorem C3_witness :
    UIEffect.warning "Select at least one product ID to forecast" ∈ effsEmptyEx ∧
    ∀ e ∈ effsEmptyEx, isForecastAction e = false :=
  C3_empty_selection_suppresses_forecast exRows ⟨[], 3, true⟩ rfl effsEmptyEx (by decide)

/-- **C10** — `plot_volume` and `format_dataset` read the module-level
global `df`, which is assigned only in the `__main__` block; before
that assignment (e.g. on plain import) either call raises a NameError
for `df` instead of returning a result. -/
theorem C10_unbound_global_df (ids : List String) :
    plot_volume_module module_df_at_import ids = .nameError "df" ∧
    format_dataset_module module_df_at_import ids = .nameError "df" :=
  ⟨rfl, rfl⟩

/-- **C7** — `run_query` and `create_dataframe` are cached with a
600-second (10-minute) TTL: a cached entry is recomputed exactly when
its age reaches the TTL, and a missing entry is always computed;
`init_connection` is cached as a resource and a present entry is never
recomputed.  `mustRecompute` is the only invalidation in the model, as
no other invalidation appears in the program. -/
theorem C7_cache_policies :
    run_query_cache = .data (some 600) ∧
    create_dataframe_cache = .data (some 600) ∧
    init_connection_cache = .resource ∧
    (∀ age, mustRecompute run_query_cache (some age) = true ↔ 600 ≤ age) ∧
    (∀ age, mustRecompute create_dataframe_cache (some age) = true ↔ 600 ≤ age) ∧
    (∀ age, mustRecompute init_connection_cache (some age) = false) ∧
    (∀ p : CachePolicy, mustRecompute p none = true) := by
  refine ⟨rfl, rfl, rfl, ?_, ?_, fun age => rfl, fun p => rfl⟩ <;>
    intro age <;>
    simp [mustRecompute, run_query_cache, create_dataframe_cache]

/-- A concrete instance of C7: at age 600 s the query cache is stale, at
age 599 s it is not, and the connection resource never is. -/
theorem C7_witness :
    mustRecompute run_query_cache (some 600) = true ∧
    mustRecompute create_dataframe_cache (some 599) = false ∧
    mustRecompute init_connection_cache (some 1000000) = false := by
  obtain ⟨-, -, -, h1, h2, h3, -⟩ := C7_cache_policies
  refine ⟨(h1 600).mpr (by decide), ?_, h3 1000000⟩
  have h4 := h2 599
  revert h4
  cases mustRecompute create_dataframe_cache (some 599) <;> simp

/-- **C8** — For every heap holding the global sales frame `df` at
address `g`, running `format_dataset` leaves the object at `g` exactly
as it was: the mask selection and the column drop allocate derived
copies and the in-place rename mutates only the last copy, whose final
content is precisely the pure `format_dataset` result. -/
theorem C8_global_df_unchanged (h : Heap) (g : Nat) (df : DataFrame)
    (hg : h.lookup g = some df) (ids : List String) :
    (format_dataset_heap h g ids).1.lookup g = some df ∧
    (∀ r, (format_dataset_heap h g ids).2 = some r →
      (format_dataset_heap h g ids).1.lookup r =
        (format_dataset df ids).map (fun d => d)) := by
  have hg2 : h[g]? = some df := hg
  obtain ⟨hlt, -⟩ := List.getElem?_eq_some.mp hg
  cases hdrop : (df.filterIsin ids).dropCol "id" with
  | none =>
    have hcall : format_dataset_heap h g ids = (h ++ [df.filterIsin ids], none) := by
      simp only [format_dataset_heap, Heap.alloc, Heap.lookup, hg2,
        List.getElem?_concat_length, Option.some_bind, hdrop]
    rw [hcall]
    refine ⟨?_, fun r hr => by cases hr⟩
    show (h ++ [df.filterIsin ids])[g]? = some df
    rw [List.getElem?_append_left hlt]
    exact hg
  | some dropped =>
    have hcall : format_dataset_heap h g ids =
        (((h ++ [df.filterIsin ids]) ++ [dropped]).set (h.length + 1)
           (dropped.renameCols renameMap), some (h.length + 1)) := by
      simp only [format_dataset_heap, Heap.alloc, Heap.lookup, Heap.store, hg2,
        List.getElem?_concat_length, Option.some_bind, hdrop]
      simp [List.length_append]
    rw [hcall]
    constructor
    · show (((h ++ [df.filterIsin ids]) ++ [dropped]).set (h.length + 1)
           (dropped.renameCols renameMap))[g]? = some df
      rw [List.getElem?_set_ne (by omega)]
      rw [List.getElem?_append_left (by simp; omega)]
      rw [List.getElem?_append_left hlt]
      exact hg
    · intro r hr
      cases hr
      show (((h ++ [df.filterIsin ids]) ++ [dropped]).set (h.length + 1)
           (dropped.renameCols renameMap))[h.length + 1]? = _
      rw [List.getElem?_set_eq_of_lt (dropped.renameCols renameMap) (by simp)]
      show _ = (((df.filterIsin ids).dropCol "id").map
        (fun d => d.renameCols renameMap)).map (fun d => d)
      rw [hdrop, Option.map_some', Option.map_some']

/-- A concrete instance of C8: a heap holding only `dfEx` at address 0
is unchanged at address 0 by the call. -/
theorem C8_witness :
    (format_dataset_heap [dfEx] 0 ["A"]).1.lookup 0 = some dfEx :=
  (C8_global_df_unchanged [dfEx] 0 dfEx (by decide) ["A"]).1

/-- A string is among the string cells of a list exactly when its cell
is. -/
lemma mem_strVals (l : List CellVal) (s : String) :
    s ∈ strVals l ↔ CellVal.str s ∈ l := by
  unfold strVals
  rw [List.mem_filterMap]
  constructor
  · rintro ⟨v, hv, hmatch⟩
    cases v with
    | str t =>
      simp only [Option.some.injEq] at hmatch
      subst hmatch
      exact hv
    | int n => cases hmatch
  · intro hs
    exact ⟨CellVal.str s, hs, rfl⟩

/-- `unique()` preserves membership. -/
lemma mem_dedupFirst (l : List String) (s : String) :
    s ∈ dedupFirst l ↔ s ∈ l := by
  induction l with
  | nil => simp [dedupFirst]
  | cons a t ih =>
    simp only [dedupFirst, List.mem_cons, List.mem_filter]
    constructor
    · rintro (rfl | ⟨hmem, -⟩)
      · exact Or.inl rfl
      · exact Or.inr (ih.mp hmem)
    · rintro (rfl | hmem)
      · exact Or.inl rfl
      · by_cases hsa : s = a
        · exact Or.inl hsa
        · exact Or.inr ⟨ih.mpr hmem, decide_eq_true hsa⟩

/-- `unique()` yields distinct values. -/
lemma nodup_dedupFirst (l : List String) : (dedupFirst l).Nodup := by
  induction l with
  | nil => exact List.nodup_nil
  | cons a t ih =>
    show (a :: (dedupFirst t).filter (fun x => x ≠ a)).Nodup
    refine List.nodup_cons.mpr ⟨?_, List.Nodup.filter _ ih⟩
    intro hmem
    rw [List.mem_filter] at hmem
    exact absurd rfl (of_decide_eq_true hmem.2)

/-- The `unique_id` cells of the forecast rows for one identifier. -/
lemma filterMap_forecastRows (a : String) (l : List Nat) :
    (l.map (forecastRow a)).filterMap (fun r => r.get? 0) =
      List.replicate l.length (CellVal.str a) := by
  induction l with
  | nil => rfl
  | cons k t ih =>
    simp only [List.map_cons, List.length_cons, List.replicate_succ]
    rw [List.filterMap_cons]
    show (CellVal.str a :: (t.map (forecastRow a)).filterMap (fun r => r.get? 0)) = _
    rw [ih]

/-- The `unique_id` column of the forecast frame: `horizon` copies of
each distinct input identifier. -/
lemma sf_forecast_uid (mdf : DataFrame) (horizon : Nat) :
    ((create_sf_object mdf).forecast horizon).colValues "unique_id" =
      (dedupFirst (strVals (mdf.colValues "unique_id"))).flatMap
        (fun s => List.replicate horizon (CellVal.str s)) := by
  show ((dedupFirst (strVals (mdf.colValues "unique_id"))).flatMap
      (fun s => (List.range horizon).map (forecastRow s))).filterMap (fun r => r.get? 0) =
    (dedupFirst (strVals (mdf.colValues "unique_id"))).flatMap
      (fun s => List.replicate horizon (CellVal.str s))
  generalize dedupFirst (strVals (mdf.colValues "unique_id")) = us
  induction us with
  | nil => rfl
  | cons a t ih =>
    rw [List.flatMap_cons, List.flatMap_cons, List.filterMap_append, ih,
      filterMap_forecastRows, List.length_range]

/-- Counting one identifier in the replicated column: exactly `horizon`
occurrences when the identifier is among the distinct inputs. -/
lemma count_flatMap_replicate (us : List String) (hnd : us.Nodup) (s : String)
    (horizon : Nat) (hs : s ∈ us) :
    (us.flatMap (fun u => List.replicate horizon (CellVal.str u))).count
      (CellVal.str s) = horizon := by
  induction us with
  | nil => cases hs
  | cons a t ih =>
    rw [List.flatMap_cons, List.count_append]
    rcases List.mem_cons.mp hs with rfl | hmem
    · rw [List.count_replicate_self]
      have hz : (t.flatMap (fun u => List.replicate horizon (CellVal.str u))).count
          (CellVal.str s) = 0 := by
        rw [List.count_eq_zero]
        intro hcon
        rw [List.mem_flatMap] at hcon
        obtain ⟨u, hu, hrep⟩ := hcon
        cases List.eq_of_mem_replicate hrep
        exact (List.nodup_cons.mp hnd).1 hu
      rw [hz]
      exact Nat.add_zero horizon
    · have ha : s ≠ a := by
        rintro rfl
        exact (List.nodup_cons.mp hnd).1 hmem
      rw [List.count_replicate]
      rw [if_neg (by
        simp only [beq_iff_eq, CellVal.str.injEq]
        exact fun hcon => ha hcon.symm)]
      rw [Nat.zero_add]
      exact ih (List.nodup_cons.mp hnd).2 hmem

/-- The CSV has a header line plus one line per data row. -/
lemma csvLines_length (df : DataFrame) :
    (csvLines df).length = 1 + df.rows.length := by
  simp only [csvLines, List.length_cons, List.length_map, List.enum_length]
  omega

/-- **C4** — For every horizon and every selection whose identifiers all
occur in the sales table, a successful `make_predictions` serializes a
forecast frame that contains exactly `horizon` future rows per selected
identifier, and whose CSV consists of one header line plus one line per
forecast row.  (The external model is spec-modelled as always succeeding
on sufficient history; the 1–12 bounds are the slider constraint.) -/
theorem C4_forecast_horizon_rows (rows : List RawRow) (df : DataFrame)
    (ids : List String) (horizon : Nat) (csv : String)
    (hdf : create_dataframe rows = some df)
    (hne : ids ≠ [])
    (hcov : ∀ s ∈ ids, ∃ r ∈ rows, r.parts_id = s)
    (hlo : 1 ≤ horizon) (hhi : horizon ≤ 12)
    (hcsv : make_predictions df ids horizon = some csv) :
    ∃ fdf : DataFrame, csv = to_csv fdf ∧
      (∀ s ∈ ids, (fdf.colValues "unique_id").count (CellVal.str s) = horizon) ∧
      (csvLines fdf).length = 1 + fdf.rows.length := by
  rw [create_dataframe_eq] at hdf
  cases hc : convertedRows rows with
  | none => rw [hc] at hdf; cases hdf
  | some rs =>
    rw [hc, Option.map_some'] at hdf
    cases hdf
    unfold make_predictions at hcsv
    rw [format_dataset_sales, Option.map_some'] at hcsv
    cases hcsv
    refine ⟨_, rfl, ?_, csvLines_length _⟩
    intro s hs
    rw [sf_forecast_uid]
    refine count_flatMap_replicate _ (nodup_dedupFirst _) s horizon ?_
    rw [mem_dedupFirst, mem_strVals]
    rw [formatted_uid_mem rows rs ids hc s]
    exact ⟨hs, hcov s hs⟩

/-- A concrete instance of C4: horizon 3 for the single identifier "A"
yields the CSV of a frame with 3 rows for "A", i.e. a header line plus
exactly 3 data lines. -/
theorem C4_witness :
    (∃ fdf : DataFrame, csvEx = to_csv fdf ∧
      (∀ s ∈ ["A"], (fdf.colValues "unique_id").count (CellVal.str s) = 3) ∧
      (csvLines fdf).length = 1 + fdf.rows.length) ∧
    (csvLines fdfEx).length = 4 ∧ fdfEx.rows.length = 3 :=
  ⟨C4_forecast_horizon_rows exRows dfEx ["A"] 3 csvEx (by decide) (by decide)
    (by decide) (by decide) (by decide) (by decide), by decide, by decide⟩

/-- **C6** — Whenever the forecast button is pressed with a non-empty
selection and the rerun succeeds, the run offers a download button for
a file named "prediction.csv" with MIME type text/csv whose payload is
the `make_predictions` CSV, and that CSV is the serialization of the
forecast frame with its header row first. -/
theorem C6_download_artifact (rows : List RawRow) (ui : UIState)
    (hne : ui.product_ids ≠ []) (hbtn : ui.forecast_btn = true)
    (effs : List UIEffect) (heffs : main_script rows ui = some effs) :
    ∃ df csv, create_dataframe rows = some df ∧
      make_predictions df ui.product_ids ui.horizon = some csv ∧
      UIEffect.downloadButton "Download Prediction" csv "prediction.csv" "text/csv" ∈ effs ∧
      ∃ fdf : DataFrame, csv = to_csv fdf ∧
        (csvLines fdf).head? = some (String.intercalate "," ("" :: fdf.cols)) := by
  unfold main_script at heffs
  cases hdf : create_dataframe rows with
  | none => rw [hdf] at heffs; cases heffs
  | some df =>
    rw [hdf, Option.some_bind] at heffs
    rw [if_neg (fun hc => hne (List.length_eq_zero.mp hc))] at heffs
    rw [if_pos hbtn] at heffs
    cases hmp : make_predictions df ui.product_ids ui.horizon with
    | none => rw [hmp] at heffs; cases heffs
    | some csv =>
      rw [hmp, Option.map_some'] at heffs
      cases heffs
      refine ⟨df, csv, rfl, hmp, ?_, ?_⟩
      · simp [List.mem_append]
      · unfold make_predictions at hmp
        obtain ⟨mdf, -, hcs⟩ := Option.map_eq_some'.mp hmp
        exact ⟨(create_sf_object mdf).forecast ui.horizon, hcs.symm, rfl⟩

/-- A concrete instance of C6: the run over `exRows` with "A" selected,
horizon 3 and the button pressed offers `csvEx` under the name
"prediction.csv" with type text/csv. -/
theorem C6_witness :
    ∃ df csv, create_dataframe exRows = some df ∧
      make_predictions df ["A"] 3 = some csv ∧
      UIEffect.downloadButton "Download Prediction" csv "prediction.csv" "text/csv" ∈
        effsForecastEx ∧
      ∃ fdf : DataFrame, csv = to_csv fdf ∧
        (csvLines fdf).head? = some (String.intercalate "," ("" :: fdf.cols)) :=
  C6_download_artifact exRows ⟨["A"], 3, true⟩ (by decide) rfl effsForecastEx (by decide)
